import Mathlib

/-!
Shallow embedding of the BeatConnect license-activation core
(`sdk/activation/src/Activation.cpp`, `sdk/activation/src/MachineId.cpp`)
and the asset download manager
(`beatconnect-sdk/activation/src/AssetDownloader.cpp`).

Network I/O is modelled by passing the parsed server response (or the
transport failure) as an explicit argument; the local state file is a
field of the engine state; JUCE streaming internals are abstracted as an
oracle outcome carried by a per-call environment.  All definitions are
translated from the C++ sources; the two `ErrClass` functions are the
spec-side description of the error classification, stated for comparison
with the embedded operations.
-/

namespace BeatConnect

-- ==========================================================================
-- Activation data model (Activation.h)
-- ==========================================================================

/-- `enum class ActivationStatus` from Activation.h. -/
inductive ActivationStatus where
  | Valid
  | Invalid
  | Revoked
  | MaxReached
  | NetworkError
  | ServerError
  | NotConfigured
  | AlreadyActive
  | NotActivated
deriving DecidableEq, Repr

/-- `struct ActivationInfo` from Activation.h (field defaults as declared). -/
structure ActivationInfo where
  activationCode : String := ""
  machineId : String := ""
  activatedAt : String := ""
  expiresAt : String := ""
  currentActivations : Int := 0
  maxActivations : Int := 0
  isValid : Bool := false
deriving DecidableEq, Repr

/-- The flat JSON object written by `Impl::saveState` (keys
`activation_code, machine_id, activated_at, is_valid, current_activations,
max_activations`). -/
structure StoredState where
  activation_code : String
  machine_id : String
  activated_at : String
  is_valid : Bool
  current_activations : Int
  max_activations : Int
deriving DecidableEq, Repr

/-- The engine's mutable state: the `configured`/`activated` flags and the
in-memory `activationInfo` of `Activation::Impl`, together with the state
file at `statePath` (`none` = no file on disk). -/
structure EngineState where
  configured : Bool := false
  activated : Bool := false
  activationInfo : ActivationInfo := {}
  stateFile : Option StoredState := none
deriving DecidableEq, Repr

/-- Optional fields of a successful (no `error` key) JSON response object.
`valid` models `obj->getProperty("valid")` coerced to bool, which yields
`false` when the property is absent. -/
structure SuccessFields where
  activated_at : Option String := none
  activations : Option Int := none
  current_activations : Option Int := none
  max_activations : Option Int := none
  valid : Bool := false
deriving DecidableEq, Repr

/-- Outcome of one HTTP POST as seen by the engine:
`noConnection` = `createInputStream` returned null;
`malformed` = response body parsed to void or to a non-object;
`errorResp e` = JSON object with an `error` property of text `e`;
`ok f` = JSON object without an `error` property. -/
inductive ServerResponse where
  | noConnection
  | malformed
  | errorResp (error : String)
  | ok (fields : SuccessFields)
deriving DecidableEq, Repr

/-- `std::string::find(sub) != npos`: substring containment. -/
def containsSub (hay sub : String) : Bool :=
  decide (sub.data <:+: hay.data)

-- ==========================================================================
-- Activation operations (Activation.cpp, Activation::Impl)
-- ==========================================================================

/-- `Impl::isActivated`: `activated && activationInfo.isValid`. -/
def isActivated (s : EngineState) : Bool :=
  s.activated && s.activationInfo.isValid

/-- `Impl::getActivationInfo`: the info when `activated`, else nothing. -/
def getActivationInfo (s : EngineState) : Option ActivationInfo :=
  if s.activated then some s.activationInfo else none

/-- The JSON object `Impl::saveState` builds from the in-memory info. -/
def storedOfInfo (info : ActivationInfo) : StoredState :=
  { activation_code := info.activationCode
    machine_id := info.machineId
    activated_at := info.activatedAt
    is_valid := info.isValid
    current_activations := info.currentActivations
    max_activations := info.maxActivations }

/-- `Impl::saveState`: write the state file from the in-memory info. -/
def saveState (s : EngineState) : EngineState :=
  { s with stateFile := some (storedOfInfo s.activationInfo) }

/-- `Impl::clearState`: delete the state file if it exists. -/
def clearState (s : EngineState) : EngineState :=
  { s with stateFile := none }

/-- `Impl::loadState` (lines 600-625): if the state file exists, set
`activated = true` and `activationInfo.isValid = true`.  The file's
contents are never read. -/
def loadState (s : EngineState) : EngineState :=
  match s.stateFile with
  | some _ =>
      { s with activated := true
               activationInfo := { s.activationInfo with isValid := true } }
  | none => s

/-- `Impl::activate` (lines 301-424).  `machineId` is the fingerprint
returned by `MachineId::generate()`, `now` the current UTC time used when
the server omits `activated_at`, `resp` the parsed outcome of the POST. -/
def activate (s : EngineState) (code machineId now : String)
    (resp : ServerResponse) : ActivationStatus × EngineState :=
  if !s.configured then (.NotConfigured, s)
  else
    match resp with
    | .noConnection => (.NetworkError, s)
    | .malformed => (.ServerError, s)
    | .errorResp e =>
        if containsSub e "Invalid" then (.Invalid, s)
        else if containsSub e "revoked" then (.Revoked, s)
        else if containsSub e "maximum" || containsSub e "limit" then
          (.MaxReached, s)
        else (.ServerError, s)
    | .ok f =>
        let info : ActivationInfo :=
          { s.activationInfo with
            activationCode := code
            machineId := machineId
            isValid := true
            activatedAt := f.activated_at.getD now
            currentActivations :=
              match f.activations with
              | some n => n
              | none =>
                  match f.current_activations with
                  | some n => n
                  | none => s.activationInfo.currentActivations
            maxActivations := f.max_activations.getD s.activationInfo.maxActivations }
        (.Valid, saveState { s with activationInfo := info, activated := true })

/-- `Impl::deactivate` (lines 426-496). -/
def deactivate (s : EngineState) (resp : ServerResponse) :
    ActivationStatus × EngineState :=
  if !s.configured then (.NotConfigured, s)
  else if !s.activated then (.NotActivated, s)
  else
    match resp with
    | .noConnection => (.NetworkError, s)
    | .malformed => (.ServerError, s)
    | .errorResp _ => (.ServerError, s)
    | .ok _ =>
        (.Valid, clearState { s with activated := false, activationInfo := {} })

/-- `Impl::validate` (lines 498-580). -/
def validate (s : EngineState) (resp : ServerResponse) :
    ActivationStatus × EngineState :=
  if !s.configured then (.NotConfigured, s)
  else if !s.activated then (.NotActivated, s)
  else
    match resp with
    | .noConnection => (.NetworkError, s)
    | .malformed => (.ServerError, s)
    | .errorResp e =>
        if containsSub e "revoked" then
          (.Revoked,
           { s with activationInfo := { s.activationInfo with isValid := false } })
        else if containsSub e "Invalid" then
          (.Invalid,
           { s with activationInfo := { s.activationInfo with isValid := false } })
        else (.ServerError, s)
    | .ok f =>
        ((if f.valid then .Valid else .Invalid),
         { s with activationInfo := { s.activationInfo with isValid := f.valid } })

/-- Spec-side description of `activate`'s error classification (the order
and the case-sensitive substrings of Activation.cpp lines 369-383). -/
def activateErrClass (e : String) : ActivationStatus :=
  if containsSub e "Invalid" then .Invalid
  else if containsSub e "revoked" then .Revoked
  else if containsSub e "maximum" || containsSub e "limit" then .MaxReached
  else .ServerError

/-- Spec-side description of `validate`'s error classification
(Activation.cpp lines 554-567): `revoked` first, then `Invalid`, no
maximum/limit case. -/
def validateErrClass (e : String) : ActivationStatus :=
  if containsSub e "revoked" then .Revoked
  else if containsSub e "Invalid" then .Invalid
  else .ServerError

-- ==========================================================================
-- MachineId (MachineId.cpp, JUCE build)
-- ==========================================================================

/-- Lower-case hex digit of `n % 16` (as produced by JUCE's
`SHA256::toHexString`). -/
def hexDigitChar (n : Nat) : Char :=
  if n % 16 < 10 then Char.ofNat (48 + n % 16)
  else Char.ofNat (87 + n % 16)

/-- The two hex characters encoding one byte. -/
def hexByteChars (b : Nat) : List Char :=
  [hexDigitChar (b / 16), hexDigitChar b]

/-- `MachineId::hashMachineInfo` (JUCE build): SHA-256 the info string and
hex-encode the 32-byte digest.  The SHA-256 compression itself is taken as
a parameter `sha` returning the digest bytes. -/
def hashMachineInfo (sha : String → List Nat) (info : String) : String :=
  ⟨((sha info).map hexByteChars).flatten⟩

/-- The machine-info string actually hashed by `MachineId::generate`:
the platform info, or `"FALLBACK_ID"` when it is empty. -/
def machineInfoOrFallback (machineInfo : String) : String :=
  if machineInfo.isEmpty then "FALLBACK_ID" else machineInfo

/-- `MachineId::generate` (lines 237-255), parametric in the platform
info string and the SHA-256 digest function. -/
def MachineId.generate (sha : String → List Nat) (machineInfo : String) : String :=
  hashMachineInfo sha (machineInfoOrFallback machineInfo)

/-- `MachineId::generateShort` (lines 257-260): `generate().substr(0, 16)`. -/
def MachineId.generateShort (sha : String → List Nat) (machineInfo : String) : String :=
  ⟨(MachineId.generate sha machineInfo).data.take 16⟩

-- ==========================================================================
-- AssetDownloader data model (AssetDownloader.h)
-- ==========================================================================

/-- `enum class DownloadStatus` from AssetDownloader.h. -/
inductive DownloadStatus where
  | Success
  | NotFound
  | Unauthorized
  | NetworkError
  | DiskError
  | Cancelled
  | AlreadyExists
  | InvalidUrl
  | Corrupted
deriving DecidableEq, Repr

/-- `struct AssetInfo` from AssetDownloader.h (defaults as declared). -/
structure AssetInfo where
  id : String := ""
  name : String := ""
  type : String := ""
  mimeType : String := ""
  fileSize : Int := 0
  checksum : String := ""
  downloadUrl : String := ""
  expiresAt : Int := 0
deriving DecidableEq, Repr

/-- `struct DownloaderConfig` from AssetDownloader.h. -/
structure DownloaderConfig where
  apiBaseUrl : String := ""
  downloadPath : String := ""
  authToken : String := ""
  pluginId : String := ""
  requestTimeoutMs : Int := 30000
  verifyChecksums : Bool := true
  skipExisting : Bool := true
  maxConcurrent : Int := 2
deriving DecidableEq, Repr

/-- One HTTP request issued by the downloader: the asset-info lookup, the
presigned-URL lookup, or the file body transfer. -/
inductive NetCall where
  | assetInfoCall (assetId : String)
  | downloadUrlCall (assetId : String)
  | fileTransferCall (url : String)
deriving DecidableEq, Repr

/-- `AssetDownloader::Impl` state: the configuration fields the operations
read, the `cancelRequested` atomic, and the three registries. -/
structure FetcherState where
  configured : Bool := false
  downloadPath : String := ""
  skipExisting : Bool := true
  authToken : String := ""
  cancelRequested : Bool := false
  activeDownloads : List String := []
  cancelledDownloads : List String := []
  downloadedAssets : List (String × String) := []
deriving DecidableEq, Repr

/-- Per-call environment: what the network and the local filesystem answer
during one `download` call.  `assetInfo` is the parsed result of the
asset-info request (`none` = transport failure or error response),
`downloadUrl` the presigned URL (`""` = failure), `fileExistsAt` the local
existence check, and `transferResult` the outcome of the streaming loop of
`downloadFromUrlInternal` (status and final path). -/
structure DownloadEnv where
  assetInfo : Option AssetInfo
  fileExistsAt : String → Bool
  downloadUrl : String
  transferResult : DownloadStatus × String

/-- `downloadDir.getChildFile(fileName)`. -/
def childFile (dir fileName : String) : String :=
  dir ++ "/" ++ fileName

/-- Set-style insert into an `unordered_set` modelled as a list. -/
def insertSet (l : List String) (x : String) : List String :=
  if x ∈ l then l else x :: l

/-- Map-style assignment `m[k] = v` on an `unordered_map` modelled as an
association list. -/
def setAssoc (m : List (String × String)) (k v : String) :
    List (String × String) :=
  match m with
  | [] => [(k, v)]
  | (k', v') :: t => if k' = k then (k, v) :: t else (k', v') :: setAssoc t k v

/-- The file name `download` computes: `info ? info->name : assetId`. -/
def fileNameOf (env : DownloadEnv) (assetId : String) : String :=
  match env.assetInfo with
  | some info => info.name
  | none => assetId

-- ==========================================================================
-- AssetDownloader operations (AssetDownloader.cpp, AssetDownloader::Impl)
-- ==========================================================================

/-- `Impl::download` (lines 161-220).  Returns the `(status, localPath)`
pair, the state after the call, and the trace of network requests issued.
The asset-info lookup is performed before the `skipExisting` check because
the target file name comes from it. -/
def download (s : FetcherState) (assetId : String) (env : DownloadEnv) :
    (DownloadStatus × String) × FetcherState × List NetCall :=
  if !s.configured then ((.NetworkError, ""), s, [])
  else if assetId ∈ s.activeDownloads then ((.Success, ""), s, [])
  else
    let s1 : FetcherState :=
      { s with activeDownloads := assetId :: s.activeDownloads }
    let localPath := childFile s1.downloadPath (fileNameOf env assetId)
    if s1.skipExisting && env.fileExistsAt localPath then
      ((.AlreadyExists, localPath),
       { s1 with activeDownloads := s1.activeDownloads.erase assetId
                 downloadedAssets := setAssoc s1.downloadedAssets assetId localPath },
       [.assetInfoCall assetId])
    else if env.downloadUrl = "" then
      ((.NotFound, ""),
       { s1 with activeDownloads := s1.activeDownloads.erase assetId },
       [.assetInfoCall assetId, .downloadUrlCall assetId])
    else
      let result := env.transferResult
      let s2 : FetcherState :=
        if result.1 = .Cancelled then
          { s1 with cancelledDownloads := s1.cancelledDownloads.erase assetId }
        else s1
      (result,
       { s2 with
         activeDownloads := s2.activeDownloads.erase assetId
         downloadedAssets :=
           if result.1 = .Success then setAssoc s2.downloadedAssets assetId result.2
           else s2.downloadedAssets },
       [.assetInfoCall assetId, .downloadUrlCall assetId,
        .fileTransferCall env.downloadUrl])

/-- `Impl::downloadBatch` (lines 235-274): sequential loop over the asset
ids, checking `cancelRequested` before each download, counting `Success`
and `AlreadyExists` as succeeded and everything else as failed.  Returns
the `(succeeded, failed)` pair handed to the completion callback, the list
of per-asset statuses actually produced, and the final state. -/
def downloadBatchRun : FetcherState → List (String × DownloadEnv) →
    (Nat × Nat) × List DownloadStatus × FetcherState
  | s, [] => ((0, 0), [], s)
  | s, (assetId, env) :: rest =>
      if s.cancelRequested then ((0, 0), [], s)
      else
        let r := download s assetId env
        let tail := downloadBatchRun r.2.1 rest
        if r.1.1 = DownloadStatus.Success ∨ r.1.1 = DownloadStatus.AlreadyExists then
          ((tail.1.1 + 1, tail.1.2), r.1.1 :: tail.2.1, tail.2.2)
        else
          ((tail.1.1, tail.1.2 + 1), r.1.1 :: tail.2.1, tail.2.2)

/-- `Impl::configure` (lines 57-66). -/
def configure (s : FetcherState) (cfg : DownloaderConfig) : FetcherState :=
  { s with configured := true
           downloadPath := cfg.downloadPath
           skipExisting := cfg.skipExisting
           authToken := cfg.authToken }

/-- `Impl::setAuthToken` (lines 68-71). -/
def setAuthToken (s : FetcherState) (token : String) : FetcherState :=
  { s with authToken := token }

/-- `Impl::cancel` (lines 284-287). -/
def cancel (s : FetcherState) (assetId : String) : FetcherState :=
  { s with cancelledDownloads := insertSet s.cancelledDownloads assetId }

/-- `Impl::cancelAll` (lines 289-295): set `cancelRequested` and mark every
active download cancelled. -/
def cancelAll (s : FetcherState) : FetcherState :=
  { s with cancelRequested := true
           cancelledDownloads := s.activeDownloads.foldl insertSet s.cancelledDownloads }

/-- `Impl::deleteDownload` (lines 322-335); `deleteOk` models whether
`file.deleteFile()` succeeded. -/
def deleteDownload (s : FetcherState) (assetId : String) (deleteOk : Bool) :
    FetcherState :=
  match s.downloadedAssets.lookup assetId with
  | some _ =>
      if deleteOk then
        { s with downloadedAssets := s.downloadedAssets.filter (fun p => p.1 ≠ assetId) }
      else s
  | none => s

/-- The public operations of one fetcher that touch its state, with their
per-call environments.  `downloadFromUrlOp` never changes the state (its
internal helper is called with an empty asset id, so the cancellation
branch is skipped and no registry is touched). -/
inductive FetchOp where
  | configureOp (cfg : DownloaderConfig)
  | setAuthTokenOp (token : String)
  | downloadOp (assetId : String) (env : DownloadEnv)
  | downloadBatchOp (items : List (String × DownloadEnv))
  | downloadFromUrlOp
  | cancelOp (assetId : String)
  | cancelAllOp
  | deleteDownloadOp (assetId : String) (deleteOk : Bool)

/-- State transition of one fetcher operation (outputs discarded). -/
def fetchStep (s : FetcherState) : FetchOp → FetcherState
  | .configureOp cfg => configure s cfg
  | .setAuthTokenOp t => setAuthToken s t
  | .downloadOp assetId env => (download s assetId env).2.1
  | .downloadBatchOp items => (downloadBatchRun s items).2.2
  | .downloadFromUrlOp => s
  | .cancelOp assetId => cancel s assetId
  | .cancelAllOp => cancelAll s
  | .deleteDownloadOp assetId ok => deleteDownload s assetId ok

end BeatConnect

-- ==========================================================================
-- Helper lemmas
-- ==========================================================================

namespace BeatConnect

/-- `download` never writes the `cancelRequested` flag. -/
lemma download_cancelRequested (s : FetcherState) (assetId : String)
    (env : DownloadEnv) :
    ((download s assetId env).2.1).cancelRequested = s.cancelRequested := by
  unfold download
  split
  · rfl
  split
  · rfl
  dsimp only
  split
  · rfl
  split
  · rfl
  dsimp only
  split <;> rfl

/-- With `cancelRequested` already set, the batch loop body never runs. -/
lemma downloadBatchRun_cancelled (s : FetcherState)
    (items : List (String × DownloadEnv)) (h : s.cancelRequested = true) :
    downloadBatchRun s items = ((0, 0), [], s) := by
  cases items with
  | nil => rfl
  | cons hd tl => simp [downloadBatchRun, h]

/-- The batch loop never writes the `cancelRequested` flag. -/
lemma downloadBatchRun_cancelRequested (s : FetcherState)
    (items : List (String × DownloadEnv)) :
    ((downloadBatchRun s items).2.2).cancelRequested = s.cancelRequested := by
  induction items generalizing s with
  | nil => rfl
  | cons hd tl ih =>
      obtain ⟨assetId, env⟩ := hd
      by_cases h : s.cancelRequested = true
      · rw [downloadBatchRun_cancelled _ _ h]
      · unfold downloadBatchRun
        rw [if_neg h]
        dsimp only
        split <;> rw [ih, download_cancelRequested]

/-- No fetcher operation resets `cancelRequested` once it is set. -/
lemma fetchStep_cancelRequested (s : FetcherState) (op : FetchOp)
    (h : s.cancelRequested = true) :
    (fetchStep s op).cancelRequested = true := by
  cases op with
  | configureOp cfg => exact h
  | setAuthTokenOp t => exact h
  | downloadOp assetId env =>
      show ((download s assetId env).2.1).cancelRequested = true
      rw [download_cancelRequested]; exact h
  | downloadBatchOp items =>
      show ((downloadBatchRun s items).2.2).cancelRequested = true
      rw [downloadBatchRun_cancelRequested]; exact h
  | downloadFromUrlOp => exact h
  | cancelOp assetId => exact h
  | cancelAllOp => rfl
  | deleteDownloadOp assetId ok =>
      show (deleteDownload s assetId ok).cancelRequested = true
      unfold deleteDownload
      split
      · split
        · exact h
        · exact h
      · exact h

end BeatConnect

-- ==========================================================================
-- Claim C1 - loadState and machine-id mismatch
-- ==========================================================================

namespace BeatConnect

/-- Concrete stored state whose `machine_id` is `"aaaa1111"`. -/
def stC1 : StoredState :=
  { activation_code := "CODE-1", machine_id := "aaaa1111", activated_at := "2024-01-01T00:00:00Z", is_valid := true, current_activations := 1, max_activations := 3 }

/-- Engine state right after `configure` found a state file on disk. -/
def sC1 : EngineState :=
  { configured := true, activated := false, activationInfo := {}, stateFile := some stC1 }

/-- C1 counterexample: the state file stores machine id `"aaaa1111"` while
the current machine's fingerprint is `"bbbb2222"`, yet after `loadState`
the engine reports `isActivated() == true`, refuting the claim that a
mismatching state file yields `isActivated() == false`. -/
theorem loadState_machine_mismatch_counterexample :
    stC1.machine_id ≠ "bbbb2222" ∧ ¬ (isActivated (loadState sC1) = false) := by
  decide

/-- C1 (amended): `Impl::loadState` implements the existence-only policy:
whenever a state file exists it sets `activated` and `isValid` without
reading the file, so `isActivated()` is true even when the stored
`machine_id` differs from the current machine's fingerprint. -/
theorem loadState_machine_mismatch (s : EngineState) (st : StoredState)
    (fp : String) (hfile : s.stateFile = some st)
    (_hmm : st.machine_id ≠ fp) :
    isActivated (loadState s) = true := by
  unfold loadState
  rw [hfile]
  rfl

/-- C1 witness: the amended theorem applied to the concrete mismatching
state file. -/
theorem loadState_machine_mismatch_witness :
    sC1.stateFile = some stC1 ∧ stC1.machine_id ≠ "bbbb2222" ∧
    isActivated (loadState sC1) = true :=
  ⟨rfl, by decide, loadState_machine_mismatch sC1 stC1 "bbbb2222" rfl (by decide)⟩

-- ==========================================================================
-- Claim C2 - server error classification
-- ==========================================================================

/-- Concrete configured-and-activated engine state. -/
def sC2 : EngineState :=
  { configured := true, activated := true, activationInfo := { activationCode := "C", machineId := "m", isValid := true }, stateFile := none }

/-- C2 counterexample: the claimed uniform substring classification fails:
`deactivate` maps an error containing "revoked" to `ServerError` (never
`Revoked`), `validate` maps an error containing "maximum"/"limit" to
`ServerError` (it has no `MaxReached` case), and `activate` maps an error
containing lowercase "invalid" to `ServerError` (its match on "Invalid" is
case-sensitive). -/
theorem error_classification_counterexample :
    (deactivate sC2 (.errorResp "License has been revoked")).1 =
      ActivationStatus.ServerError ∧
    ActivationStatus.ServerError ≠ ActivationStatus.Revoked ∧
    (validate sC2 (.errorResp "Maximum activation limit reached")).1 =
      ActivationStatus.ServerError ∧
    ActivationStatus.ServerError ≠ ActivationStatus.MaxReached ∧
    (activate sC2 "C" "m" "t" (.errorResp "invalid code")).1 =
      ActivationStatus.ServerError ∧
    ActivationStatus.ServerError ≠ ActivationStatus.Invalid := by
  decide

/-- C2 (amended): the three operations classify server error text
differently: `activate` matches the case-sensitive substrings "Invalid" →
`Invalid`, then "revoked" → `Revoked`, then "maximum"/"limit" →
`MaxReached`, else `ServerError`; `deactivate` maps every error to
`ServerError`; `validate` matches "revoked" → `Revoked`, then "Invalid" →
`Invalid`, else `ServerError`, with no `MaxReached` case. -/
theorem error_classification (s : EngineState) (code mid now e : String)
    (hc : s.configured = true) (ha : s.activated = true) :
    (activate s code mid now (.errorResp e)).1 = activateErrClass e ∧
    (deactivate s (.errorResp e)).1 = ActivationStatus.ServerError ∧
    (validate s (.errorResp e)).1 = validateErrClass e := by
  refine ⟨?_, ?_, ?_⟩
  · unfold activate activateErrClass
    rw [hc]
    simp only [Bool.not_true, Bool.false_eq_true, if_false]
    split_ifs <;> rfl
  · unfold deactivate
    rw [hc, ha]
    simp only [Bool.not_true, Bool.false_eq_true, if_false]
  · unfold validate validateErrClass
    rw [hc, ha]
    simp only [Bool.not_true, Bool.false_eq_true, if_false]
    split_ifs <;> rfl

/-- C2 witness: the amended classification at a concrete error text. -/
theorem error_classification_witness :
    sC2.configured = true ∧ sC2.activated = true ∧
    ((activate sC2 "C" "m" "t" (.errorResp "Invalid code")).1 =
       activateErrClass "Invalid code" ∧
     (deactivate sC2 (.errorResp "Invalid code")).1 =
       ActivationStatus.ServerError ∧
     (validate sC2 (.errorResp "Invalid code")).1 =
       validateErrClass "Invalid code") :=
  ⟨rfl, rfl, error_classification sC2 "C" "m" "t" "Invalid code" rfl rfl⟩

end BeatConnect

-- ==========================================================================
-- Claims C3, C4, C5 - activate / deactivate / validate state effects
-- ==========================================================================

namespace BeatConnect

/-- A configured, never-activated engine (fixture). -/
def sCfg : EngineState := { configured := true }

/-- A successful activate response carrying the usual fields (fixture). -/
def fOK : SuccessFields :=
  { activated_at := some "2024-01-01T00:00:00Z", current_activations := some 1, max_activations := some 3, valid := true }

/-- C3: `activate` returns `Valid` exactly on a configured engine receiving
an error-free JSON object; in that case it sets `activated = true`, rewrites
the in-memory info with the code, the machine fingerprint, `isValid = true`,
the server timestamp (or the local one) and the slot counts, and persists
exactly that info to the state file; on every other status the whole engine
state is exactly as before the call. -/
theorem activate_valid_iff_updates (s : EngineState) (code mid now : String)
    (resp : ServerResponse) :
    ((activate s code mid now resp).1 = ActivationStatus.Valid ↔
       s.configured = true ∧ ∃ f, resp = ServerResponse.ok f) ∧
    ((activate s code mid now resp).1 ≠ ActivationStatus.Valid →
       (activate s code mid now resp).2 = s) ∧
    ((activate s code mid now resp).1 = ActivationStatus.Valid →
       (activate s code mid now resp).2.activated = true ∧
       (activate s code mid now resp).2.activationInfo.isValid = true ∧
       (activate s code mid now resp).2.activationInfo.activationCode = code ∧
       (activate s code mid now resp).2.activationInfo.machineId = mid ∧
       (activate s code mid now resp).2.configured = s.configured ∧
       (activate s code mid now resp).2.stateFile =
         some (storedOfInfo (activate s code mid now resp).2.activationInfo)) ∧
    (∀ f, resp = ServerResponse.ok f → s.configured = true →
       (activate s code mid now resp).2.activationInfo.activatedAt =
         f.activated_at.getD now ∧
       (activate s code mid now resp).2.activationInfo.currentActivations =
         (match f.activations with
          | some n => n
          | none =>
              match f.current_activations with
              | some n => n
              | none => s.activationInfo.currentActivations) ∧
       (activate s code mid now resp).2.activationInfo.maxActivations =
         f.max_activations.getD s.activationInfo.maxActivations) := by
  by_cases hc : s.configured = true
  · unfold activate
    rw [hc]
    simp only [Bool.not_true, Bool.false_eq_true, if_false]
    cases resp with
    | noConnection => simp [hc]
    | malformed => simp [hc]
    | errorResp e =>
        dsimp only
        refine ⟨?_, ?_, ?_, ?_⟩ <;> split_ifs <;> simp [hc]
    | ok f =>
        dsimp only
        refine ⟨?_, ?_, ?_, ?_⟩
        · simp
        · simp
        · intro _
          exact ⟨rfl, rfl, rfl, rfl, rfl, rfl⟩
        · intro f' hf _
          injection hf with h
          subst h
          exact ⟨rfl, rfl, rfl⟩
  · have hc' : s.configured = false := by simpa using hc
    unfold activate
    rw [hc']
    simp only [Bool.not_false, if_true]
    simp [hc']

/-- C3 witness: on a success response the engine is updated and the state
persisted; on a transport failure the state is exactly unchanged. -/
theorem activate_valid_iff_updates_witness :
    (activate sCfg "C" "m" "t" (ServerResponse.ok fOK)).2.activated = true ∧
    (activate sCfg "C" "m" "t" ServerResponse.noConnection).2 = sCfg :=
  ⟨((activate_valid_iff_updates sCfg "C" "m" "t" (ServerResponse.ok fOK)).2.2.1
      (by decide)).1,
   (activate_valid_iff_updates sCfg "C" "m" "t" ServerResponse.noConnection).2.1
      (by decide)⟩

/-- C4: `deactivate` returns `NotConfigured` on an unconfigured engine and
`NotActivated` on a configured but not activated one; when the server
confirms (`Valid`) it clears the in-memory info, resets `activated`, and
deletes the state file, so `isActivated()` is false; on any other status
the whole engine state is exactly as before the call. -/
theorem deactivate_spec (s : EngineState) (resp : ServerResponse) :
    (s.configured = false →
       deactivate s resp = (ActivationStatus.NotConfigured, s)) ∧
    (s.configured = true → s.activated = false →
       deactivate s resp = (ActivationStatus.NotActivated, s)) ∧
    ((deactivate s resp).1 = ActivationStatus.Valid →
       (deactivate s resp).2.activated = false ∧
       (deactivate s resp).2.activationInfo = {} ∧
       (deactivate s resp).2.stateFile = none ∧
       isActivated (deactivate s resp).2 = false) ∧
    ((deactivate s resp).1 ≠ ActivationStatus.Valid →
       (deactivate s resp).2 = s) := by
  by_cases hc : s.configured = true
  · by_cases ha : s.activated = true
    · unfold deactivate
      rw [hc, ha]
      simp only [Bool.not_true, Bool.false_eq_true, if_false]
      cases resp with
      | noConnection => simp [hc, ha]
      | malformed => simp [hc, ha]
      | errorResp e => simp [hc, ha]
      | ok f => simp [hc, ha, clearState, isActivated]
    · have ha' : s.activated = false := by simpa using ha
      unfold deactivate
      rw [hc, ha']
      simp [hc, ha']
  · have hc' : s.configured = false := by simpa using hc
    unfold deactivate
    rw [hc']
    simp [hc']

/-- C4 witness: the three branches at concrete inputs - unconfigured,
server-confirmed deactivation, and transport failure. -/
theorem deactivate_spec_witness :
    deactivate ({} : EngineState) ServerResponse.noConnection =
      (ActivationStatus.NotConfigured, ({} : EngineState)) ∧
    isActivated (deactivate sC2 (ServerResponse.ok fOK)).2 = false ∧
    (deactivate sC2 ServerResponse.noConnection).2 = sC2 :=
  ⟨(deactivate_spec ({} : EngineState) ServerResponse.noConnection).1 rfl,
   ((deactivate_spec sC2 (ServerResponse.ok fOK)).2.2.1 (by decide)).2.2.2,
   (deactivate_spec sC2 ServerResponse.noConnection).2.2.2 (by decide)⟩

/-- C5: on a configured and activated engine, `validate` changes at most the
`isValid` flag: the `configured`/`activated` flags, the state file, and all
other `ActivationInfo` fields are identical before and after the call, for
every possible server response. -/
theorem validate_frame (s : EngineState) (resp : ServerResponse)
    (hc : s.configured = true) (ha : s.activated = true) :
    (validate s resp).2.activated = s.activated ∧
    (validate s resp).2.configured = s.configured ∧
    (validate s resp).2.stateFile = s.stateFile ∧
    (validate s resp).2.activationInfo.activationCode =
      s.activationInfo.activationCode ∧
    (validate s resp).2.activationInfo.machineId = s.activationInfo.machineId ∧
    (validate s resp).2.activationInfo.activatedAt =
      s.activationInfo.activatedAt ∧
    (validate s resp).2.activationInfo.expiresAt = s.activationInfo.expiresAt ∧
    (validate s resp).2.activationInfo.currentActivations =
      s.activationInfo.currentActivations ∧
    (validate s resp).2.activationInfo.maxActivations =
      s.activationInfo.maxActivations := by
  cases resp with
  | noConnection => simp [validate, hc, ha]
  | malformed => simp [validate, hc, ha]
  | errorResp e =>
      simp only [validate, hc, ha, Bool.not_true, Bool.false_eq_true, if_false]
      split_ifs <;> simp [hc, ha]
  | ok f => simp [validate, hc, ha]

/-- C5 witness: the frame property at a concrete revocation response. -/
theorem validate_frame_witness :
    sC2.configured = true ∧ sC2.activated = true ∧
    ((validate sC2 (ServerResponse.errorResp "revoked")).2.activated =
       sC2.activated ∧
     (validate sC2 (ServerResponse.errorResp "revoked")).2.configured =
       sC2.configured ∧
     (validate sC2 (ServerResponse.errorResp "revoked")).2.stateFile =
       sC2.stateFile ∧
     (validate sC2 (ServerResponse.errorResp "revoked")).2.activationInfo.activationCode =
       sC2.activationInfo.activationCode ∧
     (validate sC2 (ServerResponse.errorResp "revoked")).2.activationInfo.machineId =
       sC2.activationInfo.machineId ∧
     (validate sC2 (ServerResponse.errorResp "revoked")).2.activationInfo.activatedAt =
       sC2.activationInfo.activatedAt ∧
     (validate sC2 (ServerResponse.errorResp "revoked")).2.activationInfo.expiresAt =
       sC2.activationInfo.expiresAt ∧
     (validate sC2 (ServerResponse.errorResp "revoked")).2.activationInfo.currentActivations =
       sC2.activationInfo.currentActivations ∧
     (validate sC2 (ServerResponse.errorResp "revoked")).2.activationInfo.maxActivations =
       sC2.activationInfo.maxActivations) :=
  ⟨rfl, rfl, validate_frame sC2 (ServerResponse.errorResp "revoked") rfl rfl⟩

end BeatConnect

-- ==========================================================================
-- Claims C6, C7, C9 - download and downloadBatch
-- ==========================================================================

namespace BeatConnect

/-- A configured fetcher with download directory `/dl` (fixture). -/
def sDl : FetcherState :=
  { configured := true, downloadPath := "/dl", skipExisting := true }

/-- Environment where the asset resolves to `f.wav` and that file already
exists locally (fixture). -/
def envC6 : DownloadEnv :=
  { assetInfo := some { name := "f.wav" }
    fileExistsAt := fun p => p == "/dl/f.wav"
    downloadUrl := "u"
    transferResult := (DownloadStatus.Success, "/dl/f.wav") }

/-- C6 counterexample: with `skipExisting` and the target file present,
`download` does return `AlreadyExists` with the local path, but its network
trace is nonempty - the asset-info lookup has already been performed -
refuting "without performing any network call". -/
theorem download_skip_counterexample :
    (download sDl "a1" envC6).1 = (DownloadStatus.AlreadyExists, "/dl/f.wav") ∧
    (download sDl "a1" envC6).2.2 ≠ ([] : List NetCall) := by
  decide

/-- C6 (amended): with `skipExisting = true` and the computed target file
already present, `download` returns `AlreadyExists` with the existing local
path after exactly one network request - the asset-info lookup needed to
compute the file name - and issues no download-URL request and no file
transfer. -/
theorem download_skipExisting (s : FetcherState) (assetId : String)
    (env : DownloadEnv) (h1 : s.configured = true)
    (h2 : assetId ∉ s.activeDownloads) (h3 : s.skipExisting = true)
    (h4 : env.fileExistsAt (childFile s.downloadPath (fileNameOf env assetId)) = true) :
    (download s assetId env).1 =
      (DownloadStatus.AlreadyExists,
       childFile s.downloadPath (fileNameOf env assetId)) ∧
    (download s assetId env).2.2 = [NetCall.assetInfoCall assetId] := by
  unfold download
  simp only [h1, Bool.not_true, Bool.false_eq_true, if_false]
  rw [if_neg h2]
  rw [if_pos (by simp [h3, h4])]
  exact ⟨rfl, rfl⟩

/-- C6 witness: the amended statement at the concrete fixture. -/
theorem download_skipExisting_witness :
    sDl.configured = true ∧ ("a1" ∉ sDl.activeDownloads) ∧
    sDl.skipExisting = true ∧
    envC6.fileExistsAt (childFile sDl.downloadPath (fileNameOf envC6 "a1")) = true ∧
    ((download sDl "a1" envC6).1 =
       (DownloadStatus.AlreadyExists,
        childFile sDl.downloadPath (fileNameOf envC6 "a1")) ∧
     (download sDl "a1" envC6).2.2 = [NetCall.assetInfoCall "a1"]) :=
  ⟨rfl, by decide, rfl, by decide,
   download_skipExisting sDl "a1" envC6 rfl (by decide) rfl (by decide)⟩

/-- C7: with cancellation not requested, the batch loop attempts every
asset (one status per asset, later assets still attempted after a failure)
and reports succeeded = the number of `Success`/`AlreadyExists` results and
failed = the number of all other results. -/
theorem downloadBatch_counts (s : FetcherState)
    (items : List (String × DownloadEnv)) (h : s.cancelRequested = false) :
    (downloadBatchRun s items).2.1.length = items.length ∧
    (downloadBatchRun s items).1.1 =
      (downloadBatchRun s items).2.1.countP
        (fun st => st == DownloadStatus.Success ||
                   st == DownloadStatus.AlreadyExists) ∧
    (downloadBatchRun s items).1.2 =
      (downloadBatchRun s items).2.1.countP
        (fun st => !(st == DownloadStatus.Success ||
                     st == DownloadStatus.AlreadyExists)) := by
  induction items generalizing s with
  | nil => simp [downloadBatchRun]
  | cons hd tl ih =>
      obtain ⟨assetId, env⟩ := hd
      have hpres : ((download s assetId env).2.1).cancelRequested = false := by
        rw [download_cancelRequested]; exact h
      have htail := ih ((download s assetId env).2.1) hpres
      unfold downloadBatchRun
      rw [if_neg (by simp [h])]
      dsimp only
      split
      · rename_i hok
        rcases hok with hok | hok <;>
          simp [List.countP_cons, htail.1, htail.2.1, htail.2.2, hok]
      · rename_i hok
        push_neg at hok
        obtain ⟨hn1, hn2⟩ := hok
        simp [List.countP_cons, htail.1, htail.2.1, htail.2.2, hn1, hn2]

/-- Environment whose transfer succeeds (fixture for the 3-asset batch). -/
def envOkA : DownloadEnv :=
  { assetInfo := some { name := "a" }
    fileExistsAt := fun _ => false
    downloadUrl := "ua"
    transferResult := (DownloadStatus.Success, "/dl/a") }

/-- Environment whose download-URL lookup fails, so the asset is reported
`NotFound` (fixture). -/
def envNF : DownloadEnv :=
  { assetInfo := some { name := "b" }
    fileExistsAt := fun _ => false
    downloadUrl := ""
    transferResult := (DownloadStatus.Success, "") }

/-- Environment whose transfer succeeds (fixture). -/
def envOkC : DownloadEnv :=
  { assetInfo := some { name := "c" }
    fileExistsAt := fun _ => false
    downloadUrl := "uc"
    transferResult := (DownloadStatus.Success, "/dl/c") }

/-- The 3-asset batch whose 2nd download fails with `NotFound` (fixture). -/
def itemsC7 : List (String × DownloadEnv) :=
  [("a1", envOkA), ("a2", envNF), ("a3", envOkC)]

/-- C7 witness: on the concrete batch of 3 where the 2nd fails with
`NotFound`, the completion counts are succeeded = 2, failed = 1, and the
counting law of the theorem holds. -/
theorem downloadBatch_counts_witness :
    sDl.cancelRequested = false ∧
    (downloadBatchRun sDl itemsC7).1 = (2, 1) ∧
    (downloadBatchRun sDl itemsC7).2.1 =
      [DownloadStatus.Success, DownloadStatus.NotFound, DownloadStatus.Success] ∧
    ((downloadBatchRun sDl itemsC7).2.1.length = itemsC7.length ∧
     (downloadBatchRun sDl itemsC7).1.1 =
       (downloadBatchRun sDl itemsC7).2.1.countP
         (fun st => st == DownloadStatus.Success ||
                    st == DownloadStatus.AlreadyExists) ∧
     (downloadBatchRun sDl itemsC7).1.2 =
       (downloadBatchRun sDl itemsC7).2.1.countP
         (fun st => !(st == DownloadStatus.Success ||
                      st == DownloadStatus.AlreadyExists))) :=
  ⟨rfl, by decide, by decide, downloadBatch_counts sDl itemsC7 rfl⟩

/-- C9: calling `download` on a configured fetcher while the same asset id
is already in the active-download set returns `(Success, "")` immediately,
changing nothing and issuing no network request. -/
theorem download_inflight (s : FetcherState) (assetId : String)
    (env : DownloadEnv) (h1 : s.configured = true)
    (h2 : assetId ∈ s.activeDownloads) :
    download s assetId env = ((DownloadStatus.Success, ""), s, []) := by
  unfold download
  simp [h1, h2]

/-- A fetcher with asset `a1` currently downloading (fixture). -/
def sInflight : FetcherState :=
  { configured := true, downloadPath := "/dl", activeDownloads := ["a1"] }

/-- C9 witness: the duplicate-download short-circuit at a concrete state. -/
theorem download_inflight_witness :
    sInflight.configured = true ∧ "a1" ∈ sInflight.activeDownloads ∧
    download sInflight "a1" envC6 = ((DownloadStatus.Success, ""), sInflight, []) :=
  ⟨rfl, by decide, download_inflight sInflight "a1" envC6 rfl (by decide)⟩

-- ==========================================================================
-- Claim C10 - cancelAll is permanent
-- ==========================================================================

/-- C10: after `cancelAll`, the `cancelRequested` flag stays `true` across
any further sequence of fetcher operations (no operation resets it), and
every subsequent `downloadBatch` attempts zero downloads and hands the
completion callback succeeded = 0, failed = 0. -/
theorem cancelAll_sticky (s : FetcherState) (ops : List FetchOp)
    (items : List (String × DownloadEnv)) :
    (ops.foldl fetchStep (fetchStep s FetchOp.cancelAllOp)).cancelRequested = true ∧
    downloadBatchRun (ops.foldl fetchStep (fetchStep s FetchOp.cancelAllOp)) items =
      ((0, 0), [], ops.foldl fetchStep (fetchStep s FetchOp.cancelAllOp)) := by
  have hstart : (fetchStep s FetchOp.cancelAllOp).cancelRequested = true := rfl
  have hfold : ∀ (l : List FetchOp) (t : FetcherState),
      t.cancelRequested = true → (l.foldl fetchStep t).cancelRequested = true := by
    intro l
    induction l with
    | nil => intro t ht; exact ht
    | cons op tl ih =>
        intro t ht
        exact ih _ (fetchStep_cancelRequested t op ht)
  exact ⟨hfold ops _ hstart,
         downloadBatchRun_cancelled _ items (hfold ops _ hstart)⟩

end BeatConnect

-- ==========================================================================
-- Claim C8 - generateShort is the first 16 chars of generate
-- ==========================================================================

namespace BeatConnect

lemma length_mk (l : List Char) : (String.mk l).length = l.length := rfl

/-- Hex-encoding a byte list yields two characters per byte. -/
lemma hexFlatten_length (bs : List Nat) :
    ((bs.map hexByteChars).flatten).length = 2 * bs.length := by
  induction bs with
  | nil => simp
  | cons b t ih =>
      simp only [List.map_cons, List.flatten_cons, List.length_append, ih,
        hexByteChars, List.length_cons, List.length_nil, List.length_nil]
      omega

/-- Every character produced by `hexDigitChar` is a lower-case hex digit. -/
lemma hexDigitChar_mem (n : Nat) :
    hexDigitChar n ∈ ("0123456789abcdef").data := by
  unfold hexDigitChar
  have h16 : n % 16 < 16 := Nat.mod_lt _ (by omega)
  generalize hk : n % 16 = k at h16 ⊢
  interval_cases k <;> decide

/-- C8: whenever the digest function returns 32 bytes (as SHA-256 does),
`generate` returns a 64-character hex string and `generateShort` is exactly
its first 16 characters. -/
theorem generateShort_first16 (sha : String → List Nat) (machineInfo : String)
    (h : (sha (machineInfoOrFallback machineInfo)).length = 32) :
    (MachineId.generate sha machineInfo).length = 64 ∧
    (MachineId.generateShort sha machineInfo).length = 16 ∧
    (MachineId.generateShort sha machineInfo).data =
      (MachineId.generate sha machineInfo).data.take 16 ∧
    (∀ c ∈ (MachineId.generate sha machineInfo).data,
       c ∈ ("0123456789abcdef").data) := by
  have hlen : (MachineId.generate sha machineInfo).length = 64 := by
    unfold MachineId.generate hashMachineInfo
    rw [length_mk, hexFlatten_length, h]
  refine ⟨hlen, ?_, rfl, ?_⟩
  · unfold MachineId.generateShort
    rw [length_mk, List.length_take]
    have hd : (MachineId.generate sha machineInfo).data.length = 64 := hlen
    rw [hd]
    decide
  · intro c hc
    unfold MachineId.generate hashMachineInfo at hc
    obtain ⟨chunk, hchunk, hcmem⟩ := List.mem_flatten.mp hc
    obtain ⟨b, _hb, rfl⟩ := List.mem_map.mp hchunk
    simp only [hexByteChars, List.mem_cons, List.not_mem_nil, or_false] at hcmem
    rcases hcmem with rfl | rfl
    · exact hexDigitChar_mem _
    · exact hexDigitChar_mem _

/-- C8 witness: a concrete 32-byte digest function gives a 64-character
string whose first 16 characters are `generateShort`. -/
theorem generateShort_first16_witness :
    ((fun _ : String => List.replicate 32 0) (machineInfoOrFallback "")).length = 32 ∧
    ((MachineId.generate (fun _ : String => List.replicate 32 0) "").length = 64 ∧
     (MachineId.generateShort (fun _ : String => List.replicate 32 0) "").length = 16 ∧
     (MachineId.generateShort (fun _ : String => List.replicate 32 0) "").data =
       (MachineId.generate (fun _ : String => List.replicate 32 0) "").data.take 16 ∧
     (∀ c ∈ (MachineId.generate (fun _ : String => List.replicate 32 0) "").data,
        c ∈ ("0123456789abcdef").data)) :=
  ⟨by simp,
   generateShort_first16 (fun _ : String => List.replicate 32 0) "" (by simp)⟩

end BeatConnect
